import Mathlib

/-!
Verification of the mortimer web framework (Python 2 source) against its
natural-language specification.  The development shallowly embeds the
request dispatch and response-state engine: `mortimer/util.py` (string
codecs and status lines), `mortimer/session.py` (Session and stores),
and `mortimer/web.py` (RequestHandler, Router, WebApplication).

Conventions of the embedding:
* Python exceptions become `Except PyExc`; a bare `except:` is a `match`
  on the error.
* Mutable object state becomes explicit record passing.
* `store.save(...)` calls are recorded as an explicit write trace so that
  frame conditions ("exactly one write") are statable.
* Regular expressions are embedded as a small AST (`Rx`) covering the
  constructs the repository uses (literals, `\d`, `.`, `?`, groups,
  alternation, `^`, `$`), with Python `re.match` semantics: anchored at
  the start, greedy with backtracking, groups numbered by opening
  parenthesis, unmatched groups reported as `none`.
* Session values are modelled as strings; serialized blobs either are a
  well-formed pickle of a mapping or opaque bytes that fail to unpickle.
-/

/-- Python exception kinds that the embedded code can raise.  `httpError`
is the repository's own `mortimer.web.HTTPError(status)`. -/
inductive PyExc where
  | typeError
  | keyError
  | attributeError
  | valueError
  | ioError
  | unpicklingError
  | httpError (status : Nat)
deriving Repr, DecidableEq

/-- A serialized session blob: either a well-formed pickle of a string
mapping, or raw bytes that `cPickle.loads` rejects. -/
inductive Blob where
  | pickled (data : List (String × String))
  | raw (s : String)
deriving Repr, DecidableEq

/-! ## String utilities shared by the `util.py` embedding -/

/-- Whether `p` is a prefix of `s` (used for substring search in
`str.split`). -/
def isPrefixList : List Char → List Char → Bool
  | [], _ => true
  | _ :: _, [] => false
  | a :: as, b :: bs => a = b && isPrefixList as bs

/-- Python `str.split(sep)` on character lists, scanning left to right
with non-overlapping separator occurrences.  `fuel` bounds the recursion;
every step consumes at least one character, so `fuel = s.length`
evaluates the whole input. -/
def pySplitAux (sep : List Char) : Nat → List Char → List (List Char)
  | _, [] => [[]]
  | 0, s => [s]
  | f + 1, c :: rest =>
    if 0 < sep.length ∧ isPrefixList sep (c :: rest) = true then
      [] :: pySplitAux sep f ((c :: rest).drop sep.length)
    else
      match pySplitAux sep f rest with
      | [] => [[c]]
      | g :: gs => (c :: g) :: gs

/-- Python `s.split(sep)` for a non-empty separator. -/
def pySplit (s sep : String) : List String :=
  (pySplitAux sep.data s.data.length s.data).map List.asString

/-- Hex digit value accepted by Python 2.7 `urllib.unquote`
(`_hexdig` covers both cases, in any mixture). -/
def hexVal (c : Char) : Option Nat :=
  if '0' ≤ c ∧ c ≤ '9' then some (c.toNat - '0'.toNat)
  else if 'a' ≤ c ∧ c ≤ 'f' then some (c.toNat - 'a'.toNat + 10)
  else if 'A' ≤ c ∧ c ≤ 'F' then some (c.toNat - 'A'.toNat + 10)
  else none

/-- One `%`-delimited chunk of `urllib.unquote`: decode the two leading
hex digits if possible, otherwise keep the chunk verbatim with its `%`. -/
def unquoteBit (item : String) : String :=
  match item.data with
  | c1 :: c2 :: tail =>
    match hexVal c1, hexVal c2 with
    | some h1, some h2 => List.asString (Char.ofNat (16 * h1 + h2) :: tail)
    | _, _ => "%" ++ item
  | _ => "%" ++ item

/-- Python 2 `urllib.unquote`: percent-decode, leaving malformed escapes
in place. -/
def unquote (s : String) : String :=
  match pySplit s "%" with
  | [] => s
  | [_] => s
  | b0 :: rest => b0 ++ String.join (rest.map unquoteBit)

/-- The `spc` lambda of `util.parse_post_vars`: convert `+` to space. -/
def spc (s : String) : String :=
  List.asString (s.data.map (fun c => if c = '+' then ' ' else c))

/-- Python dict assignment `d[k] = v` on an association list: overwrite
in place if the key exists, otherwise append. -/
def dictSet {α : Type} (d : List (String × α)) (k : String) (v : α) :
    List (String × α) :=
  match d with
  | [] => [(k, v)]
  | (k', v') :: rest => if k' = k then (k, v) :: rest else (k', v') :: dictSet rest k v

/-- `util.parse_get_vars`: split the query string on `&`, keep only
chunks that split into exactly a key and a value on `=`, and
percent-decode the value. -/
def parse_get_vars (data : String) : List (String × String) :=
  if data = "" then []
  else
    (pySplit data "&").foldl
      (fun get p =>
        match pySplit p "=" with
        | [k, v] => dictSet get k (unquote v)
        | _ => get)
      []

/-- A POST value: a plain string, or the list a repeated key collects. -/
inductive PValue where
  | str (s : String)
  | list (l : List String)
deriving Repr, DecidableEq

/-- Replace the value stored under an existing key. -/
def dictReplace (d : List (String × PValue)) (k : String) (v : PValue) :
    List (String × PValue) :=
  match d with
  | [] => []
  | (k', v') :: rest => if k' = k then (k, v) :: rest else (k', v') :: dictReplace rest k v

/-- The accumulation step of `util.parse_post_vars`: first occurrence
stores the string, later occurrences collect into a list. -/
def postInsert (post : List (String × PValue)) (k v : String) :
    List (String × PValue) :=
  match post.lookup k with
  | none => post ++ [(k, PValue.str v)]
  | some (PValue.list l) => dictReplace post k (PValue.list (l ++ [v]))
  | some (PValue.str s) => dictReplace post k (PValue.list [s, v])

/-- `util.parse_post_vars`: split on `&`, apply `+`-to-space and
percent-decoding to both halves, skip chunks that do not split into
exactly two parts on `=`. -/
def parse_post_vars (data : String) : List (String × PValue) :=
  (pySplit data "&").foldl
    (fun post p =>
      match (pySplit p "=").map (fun v => unquote (spc v)) with
      | [k, v] => postInsert post k v
      | _ => post)
    []

/-- `util.parse_cookie_data`: split on `"; "`, keep chunks that split
into exactly a key and a value on `=`. -/
def parse_cookie_data (data : String) : List (String × String) :=
  (pySplit data "; ").foldl
    (fun cs c =>
      match pySplit c "=" with
      | [k, v] => dictSet cs k v
      | _ => cs)
    []

/-- Python 2 `httplib.responses`: the standard status-code to
reason-phrase table. -/
def httplibResponses : List (Nat × String) :=
  [(100, "Continue"), (101, "Switching Protocols"),
   (200, "OK"), (201, "Created"), (202, "Accepted"),
   (203, "Non-Authoritative Information"), (204, "No Content"),
   (205, "Reset Content"), (206, "Partial Content"),
   (300, "Multiple Choices"), (301, "Moved Permanently"),
   (302, "Found"), (303, "See Other"), (304, "Not Modified"),
   (305, "Use Proxy"), (306, "(Unused)"), (307, "Temporary Redirect"),
   (400, "Bad Request"), (401, "Unauthorized"), (402, "Payment Required"),
   (403, "Forbidden"), (404, "Not Found"), (405, "Method Not Allowed"),
   (406, "Not Acceptable"), (407, "Proxy Authentication Required"),
   (408, "Request Timeout"), (409, "Conflict"), (410, "Gone"),
   (411, "Length Required"), (412, "Precondition Failed"),
   (413, "Request Entity Too Large"), (414, "Request-URI Too Long"),
   (415, "Unsupported Media Type"), (416, "Requested Range Not Satisfiable"),
   (417, "Expectation Failed"),
   (500, "Internal Server Error"), (501, "Not Implemented"),
   (502, "Bad Gateway"), (503, "Service Unavailable"),
   (504, "Gateway Timeout"), (505, "HTTP Version Not Supported")]

/-- An HTTP status as the handlers hold it: `RequestHandler.status`
starts as the integer 200, but `redirect` stores the string
`"302 FOUND"`. -/
inductive Status where
  | num (n : Nat)
  | str (s : String)
deriving Repr, DecidableEq

/-- `util.code_to_status`: format `"%s %s" % (str(code),
httplib.responses.get(code))`.  A missing table entry formats Python's
`None` as the text `"None"`; a string status never hits the
integer-keyed table. -/
def code_to_status : Status → String
  | Status.num code =>
    Nat.repr code ++ " " ++
      (match httplibResponses.lookup code with
       | some phrase => phrase
       | none => "None")
  | Status.str code => code ++ " None"

/-! ## `mortimer/session.py` -/

/-- `mortimer.session.Session` state.  The Python class is a `dict`
subclass; its entries are the `data` field, the remaining attributes are
as in `Session.__init__`.  (Values are modelled as strings.) -/
structure Session where
  data : List (String × String)
  dirty : Bool
  deleted : Bool
  session_id : String
deriving Repr, DecidableEq

/-- The `data` argument of `Session.__init__` as `mortimer/web.py` and
`Session.load` can supply it: a mapping, or -- as
`RequestHandler.init_request` actually does with `Session(self)` -- the
request handler object itself, which is neither a mapping nor iterable. -/
inductive UpdateArg where
  | mapping (m : List (String × String))
  | handlerObj

/-- `dict.update` with a mapping argument: merge, overwriting
existing keys.  (CPython's `dict.update` bypasses the `__setitem__`
override, so the dirty flag is untouched.) -/
def dictUpdateAll (d m : List (String × String)) : List (String × String) :=
  m.foldl (fun d kv => dictSet d kv.1 kv.2) d

/-- The always-succeeding core of `Session.__init__` (reached when
`data` is absent or a mapping): clear flags, store the entries, and
regenerate the identifier when the given one is falsy (`None` is
modelled as the empty string).  `freshId` stands for the value
`gen_session_id` would produce (its hash of time and randomness is
outside the embedding). -/
def Session.initCore (m : List (String × String)) (sid : Option String)
    (freshId : String) : Session :=
  let s : Session :=
    { data := dictUpdateAll [] m, dirty := false, deleted := false,
      session_id := match sid with | none => "" | some i => i }
  if s.session_id = "" then { s with session_id := freshId } else s

/-- `Session.__init__`.  `self.update(data)` on a non-mapping,
non-iterable object (the request handler that `web.py` passes) raises
`TypeError`; a truthy mapping is merged in; a falsy or absent `data` is
skipped, which coincides with merging the empty mapping. -/
def Session.init (data : Option UpdateArg) (sid : Option String)
    (freshId : String) : Except PyExc Session :=
  match data with
  | some UpdateArg.handlerObj => Except.error PyExc.typeError
  | some (UpdateArg.mapping m) => Except.ok (Session.initCore m sid freshId)
  | none => Except.ok (Session.initCore [] sid freshId)

/-- `Session.__setitem__`: store the pair and raise the dirty flag. -/
def Session.setItem (s : Session) (k v : String) : Session :=
  { s with dirty := true, data := dictSet s.data k v }

/-- Reading a key of the session.  The source defines no `__getitem__`
override, so this is plain `dict.__getitem__`: an association-list
lookup that never touches any store and raises `KeyError` on a missing
key. -/
def Session.getItem (s : Session) (k : String) : Except PyExc String :=
  match s.data.lookup k with
  | some v => Except.ok v
  | none => Except.error PyExc.keyError

/-- `cPickle.dumps(self)` on a session: serializes the mapping. -/
def pickleDumps (s : Session) : Blob := Blob.pickled s.data

/-- `cPickle.loads`: recover the mapping from a well-formed pickle,
raise on anything else (missing or corrupt bytes). -/
def pickleLoads : Blob → Except PyExc (List (String × String))
  | Blob.pickled d => Except.ok d
  | Blob.raw _ => Except.error PyExc.unpicklingError

/-- `Session.save(store=None)`.  `hasStore` records whether a store
object was passed (`false` models the default `None`).  A clean session
returns immediately with no store interaction; a dirty one clears the
flag, pickles itself, and performs exactly one `store.save(session_id,
pdata)` call -- unless the store is `None`, in which case that attribute
access raises `AttributeError`.  The returned list is the trace of store
writes performed. -/
def Session.save (s : Session) (hasStore : Bool) :
    Except PyExc (Session × List (String × Blob)) :=
  if s.dirty = false then Except.ok (s, [])
  else
    let s := { s with dirty := false }
    let pdata := pickleDumps s
    if hasStore then Except.ok (s, [(s.session_id, pdata)])
    else Except.error PyExc.attributeError

/-- `Session.load` (classmethod): fetch and unpickle the blob inside a
`try`, returning a fresh session populated from it; any failure
(missing file, undecodable blob) falls back to an empty session with
the same identifier. -/
def Session.load (session_id : String) (store : String → Except PyExc Blob)
    (freshId : String) : Session :=
  match store session_id >>= pickleLoads with
  | Except.ok data => Session.initCore data (some session_id) freshId
  | Except.error _ => Session.initCore [] (some session_id) freshId

/-- `BaseStore.load` (also inherited by `DummyStore`): returns the empty
string, which is not a valid pickle. -/
def BaseStore.load (_sid : String) : Except PyExc Blob :=
  Except.ok (Blob.raw "")

/-- `FileStore.load`: read the file named by the session id; a missing
file raises `IOError`. -/
def FileStore.load (files : List (String × Blob)) (sid : String) :
    Except PyExc Blob :=
  match files.lookup sid with
  | some b => Except.ok b
  | none => Except.error PyExc.ioError

/-! ## Regular expressions (`re` as the repository uses it) -/

/-- Abstract syntax of the regular-expression subset appearing in the
repository's route patterns: literals, `\d`, `.`, concatenation,
alternation, `?`, capture groups, `^`, `$`. -/
inductive Rx where
  | eps
  | lit (c : Char)
  | digit
  | dotAny
  | seq (a b : Rx)
  | alt (a b : Rx)
  | opt (a : Rx)
  | group (a : Rx)
  | bol
  | eol
deriving Repr, DecidableEq

/-- Number of capture groups, in opening-parenthesis order. -/
def numGroups : Rx → Nat
  | Rx.seq a b => numGroups a + numGroups b
  | Rx.alt a b => numGroups a + numGroups b
  | Rx.opt a => numGroups a
  | Rx.group a => numGroups a + 1
  | _ => 0

/-- Placeholder captures for groups that did not participate in the
match (Python reports them as `None`). -/
def noneList (n : Nat) : List (Option String) := List.replicate n none

/-- The substring of `s` from position `i` (inclusive) to `j`
(exclusive). -/
def sliceStr (s : List Char) (i j : Nat) : String :=
  List.asString ((s.drop i).take (j - i))

/-- Backtracking matcher in continuation-passing style, mirroring
Python `re` semantics on this subset: alternation is ordered, `?` is
greedy, captures are the last text a group matched, and a group inside
an untaken branch contributes `none`.  The continuation receives the
next position and the captures of the matched piece. -/
def matchM {α : Type} (s : List Char) :
    Rx → Nat → (Nat → List (Option String) → Option α) → Option α
  | Rx.eps, pos, k => k pos []
  | Rx.lit c, pos, k =>
    match s.get? pos with
    | some c2 => if c2 = c then k (pos + 1) [] else none
    | none => none
  | Rx.digit, pos, k =>
    match s.get? pos with
    | some c2 => if c2.isDigit then k (pos + 1) [] else none
    | none => none
  | Rx.dotAny, pos, k =>
    match s.get? pos with
    | some c2 => if c2 = '\n' then none else k (pos + 1) []
    | none => none
  | Rx.seq a b, pos, k =>
    matchM s a pos (fun p ca => matchM s b p (fun q cb => k q (ca ++ cb)))
  | Rx.alt a b, pos, k =>
    match matchM s a pos (fun p ca => k p (ca ++ noneList (numGroups b))) with
    | some r => some r
    | none => matchM s b pos (fun p cb => k p (noneList (numGroups a) ++ cb))
  | Rx.opt a, pos, k =>
    match matchM s a pos k with
    | some r => some r
    | none => k pos (noneList (numGroups a))
  | Rx.group a, pos, k =>
    matchM s a pos (fun p ca => k p (some (sliceStr s pos p) :: ca))
  | Rx.bol, pos, k => if pos = 0 then k pos [] else none
  | Rx.eol, pos, k => if pos = s.length then k pos [] else none

/-- `compiled.match(uri)` followed by `.groups()`: anchored at the
start of the string (Python `re.match`), may stop before the end, and
yields the ordered capture tuple on success. -/
def rxMatch (r : Rx) (uri : String) : Option (List (Option String)) :=
  matchM uri.data r 0 (fun _ caps => some caps)

/-- Concatenation of a pattern list. -/
def rxCat (l : List Rx) : Rx := l.foldr Rx.seq Rx.eps

/-- A sequence of literal characters. -/
def rxStr (s : String) : Rx := rxCat (s.data.map Rx.lit)

/-! ## `mortimer/web.py`: Router -/

/-- `Router.find_route`: scan the route list in registration order,
return the first `(handler, m.groups())` whose pattern matches, and
`None` when nothing matches. -/
def Router.find_route {H : Type} (routes : List (Rx × H)) (uri : String) :
    Option (H × List (Option String)) :=
  match routes with
  | [] => none
  | (regex, obj) :: rest =>
    match rxMatch regex uri with
    | some groups => some (obj, groups)
    | none => Router.find_route rest uri

/-- `re.compile` applied to an already-compiled pattern returns it
unchanged; patterns are stored compiled in this embedding. -/
def reCompile (r : Rx) : Rx := r

/-- `Router.compile_routes`: recompile every stored pattern; the `Nat`
counts this as one invocation of `compile_routes` (one full compile
pass over the table). -/
def Router.compile_routes {H : Type} (routes : List (Rx × H)) :
    List (Rx × H) × Nat :=
  (routes.map (fun rt => (reCompile rt.1, rt.2)), 1)

/-- `Router.add_route`: append the route, then compile.  Returns the
new table and the number of compile passes performed. -/
def Router.add_route {H : Type} (routes : List (Rx × H)) (route : Rx × H) :
    List (Rx × H) × Nat :=
  Router.compile_routes (routes ++ [route])

/-- One iteration of the `for route in routes: self.add_route(route)`
loop of `add_route_list`: apply `add_route` to the table and accumulate
its compile-pass count. -/
def Router.add_route_fold {H : Type} (acc : List (Rx × H) × Nat)
    (route : Rx × H) : List (Rx × H) × Nat :=
  ((Router.add_route acc.1 route).1, acc.2 + (Router.add_route acc.1 route).2)

/-- `Router.add_route_list`: delegate each route to `add_route`, then
compile once more.  Returns the new table and the total number of
compile passes performed during the bulk operation. -/
def Router.add_route_list {H : Type} (routes new : List (Rx × H)) :
    List (Rx × H) × Nat :=
  let acc := new.foldl Router.add_route_fold (routes, 0)
  ((Router.compile_routes acc.1).1, acc.2 + (Router.compile_routes acc.1).2)

/-! ## `mortimer/web.py`: RequestHandler -/

/-- The WSGI environment fields the handlers read.  `CONTENT_LENGTH`
and `HTTP_COOKIE` may be absent from a request (`none`); subscripting
an absent key raises `KeyError`. -/
structure Env where
  requestMethod : String
  pathInfo : String
  queryString : String
  contentLength : Option String
  httpCookie : Option String
  wsgiInput : String
deriving Repr, DecidableEq

/-- Per-request handler state: the environment plus the mutable
response state set up in `RequestHandler.__init__`. -/
structure RequestHandler where
  env : Env
  session : Option Session
  status : Status
  headers : List (String × String)
deriving Repr, DecidableEq

/-- Remove the first element equal to `x` (Python `list.remove`,
except that the source only calls it on present elements, so the
missing-element `ValueError` cannot occur there). -/
def removeFirst (l : List (String × String)) (x : String × String) :
    List (String × String) :=
  match l with
  | [] => []
  | h :: t => if h = x then t else h :: removeFirst t x

/-- The `for header in self.headers: ... self.headers.remove(header)`
loop of `add_header`, with CPython's list-iterator semantics: the
iterator advances an index while `remove` shifts the remaining
elements left, so the element after a removed one is skipped.  `i` is
the iterator's index; `fuel` (the list length at entry, which the loop
never exceeds since `i` strictly increases and the list never grows)
makes the recursion structural. -/
def scanRemove (headers : List (String × String)) (name : String) :
    Nat → Nat → List (String × String)
  | _, 0 => headers
  | i, f + 1 =>
    if hi : i < headers.length then
      let header := headers.get ⟨i, hi⟩
      if header.1 = name then
        scanRemove (removeFirst headers header) name (i + 1) f
      else
        scanRemove headers name (i + 1) f
    else headers

/-- `RequestHandler.add_header(name, val)` acting on the header list:
pre-append the pair when the name is `Set-Cookie`, run the
scan-and-remove loop over every existing header of that name, then
append the pair. -/
def add_header (headers : List (String × String)) (name val : String) :
    List (String × String) :=
  let hs := if name = "Set-Cookie" then headers ++ [(name, val)] else headers
  let hs := scanRemove hs name 0 hs.length
  hs ++ [(name, val)]

/-- `RequestHandler.redirect(loc)`: store the string status
`'302 FOUND'`, set the `Location` header, return the empty body. -/
def redirect (h : RequestHandler) (loc : String) : RequestHandler × String :=
  ({ h with status := Status.str "302 FOUND",
            headers := add_header h.headers "Location" loc }, "")

/-- Python `str.lower`. -/
def pyLower (s : String) : String := List.asString (s.data.map Char.toLower)

/-- Subscripting an optional environment entry: `KeyError` when the
key is absent. -/
def envGet {α : Type} : Option α → Except PyExc α
  | none => Except.error PyExc.keyError
  | some a => Except.ok a

/-- Python `int(str)`: strip whitespace, optional sign, decimal digits;
anything else raises `ValueError`. -/
def pyInt (s : String) : Except PyExc Int :=
  let isSpaceC : Char → Bool := fun c =>
    c = ' ' || c = '\t' || c = '\n' || c = '\r' || c = '\x0b' || c = '\x0c'
  let t := ((s.data.dropWhile isSpaceC).reverse.dropWhile isSpaceC).reverse
  let signAndDigits : Int × List Char :=
    match t with
    | '-' :: rest => (-1, rest)
    | '+' :: rest => (1, rest)
    | l => (1, l)
  let digits := signAndDigits.2
  if 0 < digits.length ∧ digits.all Char.isDigit then
    Except.ok (signAndDigits.1 *
      Int.ofNat (digits.foldl (fun a c => a * 10 + (c.toNat - 48)) 0))
  else Except.error PyExc.valueError

/-- `wsgi.input.read(n)`: the first `n` bytes of the body (a negative
count reads everything). -/
def wsgiRead (input : String) (n : Int) : String :=
  if n < 0 then input else List.asString (input.data.take n.toNat)

/-- `RequestHandler.get_args` (property): parse `QUERY_STRING`. -/
def RequestHandler.get_args (env : Env) : List (String × String) :=
  parse_get_vars env.queryString

/-- `RequestHandler.post_args` (property): `{}` for a non-POST method;
otherwise read `CONTENT_LENGTH` (raising `KeyError` when the header is
absent), convert it to an integer, read that much body, and parse it.
No exception handler surrounds any of these steps. -/
def RequestHandler.post_args (env : Env) : Except PyExc (List (String × PValue)) :=
  if env.requestMethod ≠ "POST" then Except.ok []
  else do
    let length ← envGet env.contentLength
    let n ← pyInt length
    let data := wsgiRead env.wsgiInput n
    Except.ok (parse_post_vars data)

/-- `RequestHandler.cookies` (property): the whole body sits in a
`try`/bare-`except` returning `{}`, so a missing `HTTP_COOKIE` degrades
to the empty mapping. -/
def RequestHandler.cookies (env : Env) : List (String × String) :=
  match (envGet env.httpCookie).map parse_cookie_data with
  | Except.ok m => m
  | Except.error _ => []

/-- The behaviour a `RequestHandler` subclass adds: a table from
lowercased HTTP verb names to the method bodies the subclass defines
(`none` models a missing method, i.e. `getattr` raising
`AttributeError`).  A verb method receives the handler state and the
captured route groups and returns the new state and the body string. -/
structure HandlerCls where
  verbs : String → Option (RequestHandler → List (Option String) →
    Except PyExc (RequestHandler × String))

/-- `RequestHandler.__init__` + `init_request`: store the environment,
default the status to 200 and the headers, and build the session with
`session.Session(self)` -- passing the handler itself as the `data`
argument, so `dict.update` raises `TypeError` before the constructor
can finish.  `freshId` stands for the generated session id. -/
def RequestHandler.init (env : Env) (freshId : String) :
    Except PyExc RequestHandler := do
  let s ← Session.init (some UpdateArg.handlerObj) none freshId
  Except.ok { env := env, session := some s, status := Status.num 200,
              headers := [("Content-type", "text/html; charset=UTF-8")] }

/-- `RequestHandler.execute(*args)`: look up the method named by the
lowercased request verb (`AttributeError` when the subclass lacks it),
run it, then `self.session.save()` -- with no store argument -- and
return the one-element body list.  The middle component is the trace of
store writes performed. -/
def RequestHandler.execute (h : RequestHandler) (cls : HandlerCls)
    (args : List (Option String)) :
    Except PyExc (RequestHandler × List (String × Blob) × List String) := do
  let method := h.env.requestMethod
  let verb ← match cls.verbs (pyLower method) with
    | none => Except.error PyExc.attributeError
    | some f => Except.ok f
  let (h, data) ← verb h args
  match h.session with
  | none => Except.ok (h, [], [data])
  | some s => do
    let (s, ops) ← s.save false
    Except.ok ({ h with session := some s }, ops, [data])

/-! ## `mortimer/web.py`: WebApplication -/

/-- A web application: its router's (compiled) route table. -/
structure WebApplication where
  router : List (Rx × HandlerCls)

/-- What one request produces on success: the status line and headers
handed to the WSGI callback, and the body chunks of the returned
iterator. -/
structure CallResult where
  statusLine : String
  headers : List (String × String)
  body : List String
deriving Repr, DecidableEq

/-- `WebApplication.find_route`: raise `HTTPError(404)` when the router
finds nothing. -/
def WebApplication.find_route (app : WebApplication) (uri : String) :
    Except PyExc (HandlerCls × List (Option String)) :=
  match Router.find_route app.router uri with
  | none => Except.error (PyExc.httpError 404)
  | some r => Except.ok r

/-- `ErrorRequestHandler.__init__`: run the parent constructor (which
raises `TypeError` in `init_request`), then override the status and
content type. -/
def ErrorRequestHandler.init (env : Env) (status : Nat) (freshId : String) :
    Except PyExc RequestHandler := do
  let h ← RequestHandler.init env freshId
  let h := { h with status := Status.num status }
  let h := { h with headers := add_header h.headers "Content-type" "text/plain" }
  Except.ok h

/-- `ErrorRequestHandler.execute`: just the status text. -/
def ErrorRequestHandler.execute (h : RequestHandler) : String :=
  code_to_status h.status

/-- One `except` branch of `WebApplication.__call__`: build an
`ErrorRequestHandler`, send its status line and headers to the
callback, and return `iter(handler.execute())` -- iteration over a
string, i.e. its characters. -/
def WebApplication.errorBranch (env : Env) (status : Nat) (freshId : String) :
    Except PyExc CallResult := do
  let h ← ErrorRequestHandler.init env status freshId
  Except.ok { statusLine := code_to_status h.status, headers := h.headers,
              body := (ErrorRequestHandler.execute h).data.map
                (fun c => List.asString [c]) }

/-- The `try` block of `WebApplication.__call__`: resolve the route,
construct the handler, execute it, translate the status, invoke the
callback and return the body iterator. -/
def WebApplication.tryCall (app : WebApplication) (env : Env)
    (freshId : String) : Except PyExc CallResult :=
  match WebApplication.find_route app env.pathInfo with
  | Except.error e => Except.error e
  | Except.ok (cls, args) =>
    match RequestHandler.init env freshId with
    | Except.error e => Except.error e
    | Except.ok h =>
      match RequestHandler.execute h cls args with
      | Except.error e => Except.error e
      | Except.ok (h2, _ops, body) =>
        Except.ok { statusLine := code_to_status h2.status,
                    headers := h2.headers, body := body }

/-- `WebApplication.__call__`: the `try` block, then the ordered
`except` clauses -- `AttributeError` to 404, `HTTPError` to its carried
status, anything else to 500. -/
def WebApplication.call (app : WebApplication) (env : Env)
    (freshId : String) : Except PyExc CallResult :=
  match WebApplication.tryCall app env freshId with
  | Except.ok r => Except.ok r
  | Except.error PyExc.attributeError => WebApplication.errorBranch env 404 freshId
  | Except.error (PyExc.httpError s) => WebApplication.errorBranch env s freshId
  | Except.error _ => WebApplication.errorBranch env 500 freshId

/-! ## Concrete fixtures used by the theorems -/

/-- The pattern `^/$`. -/
def rootPat : Rx := rxCat [Rx.bol, Rx.lit '/', Rx.eol]

/-- The pattern `/test/(\d)/?` from the router tests. -/
def testDigitPat : Rx :=
  rxCat [rxStr "/test/", Rx.group Rx.digit, Rx.opt (Rx.lit '/')]

/-- A handler class whose `get` returns `"Hello, World"`. -/
def helloCls : HandlerCls :=
  { verbs := fun m =>
      if m = "get" then some (fun h _ => Except.ok (h, "Hello, World"))
      else none }

/-- The application of the end-to-end test: `^/$` bound to the hello
handler. -/
def helloApp : WebApplication := { router := [(rootPat, helloCls)] }

/-- A GET request for `/`. -/
def getRootEnv : Env :=
  { requestMethod := "GET", pathInfo := "/", queryString := "",
    contentLength := none, httpCookie := none, wsgiInput := "" }

/-- A POST request with a body but no `CONTENT_LENGTH` header. -/
def postNoLenEnv : Env :=
  { requestMethod := "POST", pathInfo := "/", queryString := "",
    contentLength := none, httpCookie := none, wsgiInput := "a=1" }

/-- The headers `init_request` installs. -/
def defaultHeaders : List (String × String) :=
  [("Content-type", "text/html; charset=UTF-8")]

/-- A handler class whose `get` writes to the session (making it
dirty). -/
def sessionWriterCls : HandlerCls :=
  { verbs := fun m =>
      if m = "get" then some (fun h _ =>
        match h.session with
        | some s => Except.ok ({ h with session := some (s.setItem "user" "alice") }, "ok")
        | none => Except.ok (h, "ok"))
      else none }

/-- A handler class whose `get` leaves the session untouched. -/
def plainCls : HandlerCls :=
  { verbs := fun m =>
      if m = "get" then some (fun h _ => Except.ok (h, "ok"))
      else none }

/-- A handler state as it would stand when a verb method begins: clean
session, default status and headers. -/
def handlerState0 : RequestHandler :=
  { env := getRootEnv, session := some (Session.initCore [] (some "sid0") "sid0"),
    status := Status.num 200, headers := defaultHeaders }

/-- A store holding a decodable blob for session id `sid0`. -/
def seededStore : String → Except PyExc Blob :=
  fun sid => if sid = "sid0" then Except.ok (Blob.pickled [("k", "v")])
             else Except.error PyExc.ioError

/-- A clean (never written) session with id `s`. -/
def cleanSession0 : Session := Session.initCore [] (some "s") "s"

/-- `cleanSession0` after one write: dirty, holding one pair. -/
def dirtySession0 : Session := Session.setItem cleanSession0 "a" "b"

/-! ## Theorems -/

/-- Helper: the handler constructor always raises `TypeError`, because
`init_request` evaluates `Session(self)` and `dict.update` rejects the
handler object. -/
theorem requestHandler_init_raises (env : Env) (fid : String) :
    RequestHandler.init env fid = Except.error PyExc.typeError := rfl

/-- Helper: every `except` branch of the dispatcher re-raises
`TypeError`, because `ErrorRequestHandler.__init__` runs the same
failing constructor. -/
theorem errorBranch_raises (env : Env) (s : Nat) (fid : String) :
    WebApplication.errorBranch env s fid = Except.error PyExc.typeError := rfl

/-- C1: the end-to-end claim -- dispatching GET `/` through an
application binding `^/$` to a handler whose `get` returns
`"Hello, World"` should invoke the callback with `"200 OK"` and yield
the body `"Hello, World"`.  The code does not: the route resolves, but
`WebApplication.__call__` raises `TypeError` (handler construction
passes the handler object to `Session.__init__` as the update data, and
the 500 fallback path constructs another handler the same way), so no
response is produced at all.  This contradicts the repository's own
`webapplication_test.test_index`. -/
theorem c1_hello_world_dispatch_raises :
    Router.find_route helloApp.router "/" = some (helloCls, [])
    ∧ WebApplication.call helloApp getRootEnv "sid0"
        = Except.error PyExc.typeError := ⟨rfl, rfl⟩

/-- C2: the claim says every failure during route resolution, handler
construction, or handler execution is caught at the dispatcher and
turned into an error response.  In the code the opposite holds
universally: for every application, environment, and generated session
id, `WebApplication.__call__` terminates with an uncaught `TypeError`,
because the `ErrorRequestHandler` built inside each `except` clause
re-runs the constructor that raised in the first place. -/
theorem c2_dispatcher_raises_every_request (app : WebApplication) (env : Env)
    (freshId : String) :
    WebApplication.call app env freshId = Except.error PyExc.typeError := by
  unfold WebApplication.call WebApplication.tryCall
  cases hfr : WebApplication.find_route app env.pathInfo with
  | error e =>
    cases e <;> simp [errorBranch_raises]
  | ok r =>
    obtain ⟨cls, args⟩ := r
    simp [requestHandler_init_raises, errorBranch_raises]

/-- C3: the claim (and `add_header`'s own docstring) says two
successive `add_header('Set-Cookie', ...)` calls leave both directives
present and never remove a cookie header.  The code disagrees: on the
default header list, adding directive `a=1` and then `b=2` removes
`a=1` (the scan-and-remove loop finds it) and, because removal during
iteration skips the element that slides into the removed slot, the
freshly appended `b=2` survives the scan and is appended a second
time -- the result holds `b=2` twice and `a=1` not at all. -/
theorem c3_set_cookie_directive_lost :
    add_header (add_header defaultHeaders "Set-Cookie" "a=1") "Set-Cookie" "b=2"
      = [("Content-type", "text/html; charset=UTF-8"),
         ("Set-Cookie", "b=2"), ("Set-Cookie", "b=2")]
    ∧ ("Set-Cookie", "a=1") ∉
        add_header (add_header defaultHeaders "Set-Cookie" "a=1") "Set-Cookie" "b=2" :=
  ⟨rfl, by decide⟩

/-- C4: the claim says a dirty session is persisted and a session-id
cookie attached during finalization, and a clean session causes
neither.  The clean half holds (second conjunct: no store write, no
header change).  The dirty half fails: `RequestHandler.execute` calls
`self.session.save()` with no store, so `Session.save` dereferences
`None` and raises `AttributeError`; nothing in `execute` ever attaches
a cookie header. -/
theorem c4_dirty_session_finalization_raises :
    RequestHandler.execute handlerState0 sessionWriterCls []
      = Except.error PyExc.attributeError
    ∧ RequestHandler.execute handlerState0 plainCls []
      = Except.ok (handlerState0, [], ["ok"]) := ⟨rfl, rfl⟩

/-- C5 counterexample: the claim says the backing store is consulted at
the first read access of the session data.  It is not: reading is plain
`dict` access (no `__getitem__` override exists), which takes no store
at all.  Concretely, with a store holding the decodable mapping
`("k", "v")` under id `sid0`, a session constructed with that id reads
`"k"` as `KeyError`, even though the explicit classmethod
`Session.load` does retrieve the value from the same store. -/
theorem c5_read_never_consults_store :
    (Session.initCore [] (some "sid0") "sid0").data = []
    ∧ (seededStore "sid0" >>= pickleLoads) = Except.ok [("k", "v")]
    ∧ Session.getItem (Session.initCore [] (some "sid0") "sid0") "k"
        = Except.error PyExc.keyError
    ∧ Session.getItem (Session.load "sid0" seededStore "sid0") "k"
        = Except.ok "v" := ⟨rfl, rfl, rfl, rfl⟩

/-- C5 amended: no data is loaded from the store at construction; the
store is consulted only by the explicit `Session.load` classmethod
(never by a read access); and a failed load -- missing entry or
undecodable blob -- yields an empty session carrying the requested id,
without raising past the load call. -/
theorem c5_failed_load_yields_empty (sid : String)
    (store : String → Except PyExc Blob) (fid : String) (e : PyExc)
    (hfail : store sid >>= pickleLoads = Except.error e) (hsid : sid ≠ "") :
    Session.load sid store fid
      = { data := [], dirty := false, deleted := false, session_id := sid } := by
  unfold Session.load
  rw [hfail]
  unfold Session.initCore
  simp [dictUpdateAll, hsid]

/-- C5 witness: the base store's load (the empty string) is not a valid
pickle, and `Session.load` degrades to the empty session. -/
theorem c5_failed_load_yields_empty_witness :
    Session.load "abc" BaseStore.load "f"
      = { data := [], dirty := false, deleted := false, session_id := "abc" } :=
  c5_failed_load_yields_empty "abc" BaseStore.load "f" PyExc.unpicklingError rfl
    (by decide)

/-- C6 counterexample: the claim says a POST request missing the
`Content-Length` header makes `post_args` return an empty mapping.
Instead the bare subscript `self.env['CONTENT_LENGTH']` raises
`KeyError` -- no handler surrounds it. -/
theorem c6_post_args_missing_length_raises :
    RequestHandler.post_args postNoLenEnv = Except.error PyExc.keyError := rfl

/-- C6 amended: a non-POST method makes `post_args` return the empty
mapping, and an absent cookie header makes `cookies` return the empty
mapping; but a POST request missing `Content-Length` makes `post_args`
raise a key-lookup error (left for the dispatcher's catch-all) rather
than return an empty mapping. -/
theorem c6_accessor_degradation (env : Env) :
    (env.requestMethod ≠ "POST" → RequestHandler.post_args env = Except.ok [])
    ∧ (env.httpCookie = none → RequestHandler.cookies env = [])
    ∧ (env.requestMethod = "POST" → env.contentLength = none →
        RequestHandler.post_args env = Except.error PyExc.keyError) := by
  refine ⟨fun h => ?_, fun h => ?_, fun h1 h2 => ?_⟩
  · simp [RequestHandler.post_args, h]
  · simp [RequestHandler.cookies, h, envGet, Except.map]
  · simp [RequestHandler.post_args, h1, h2, envGet, bind, Except.bind]

/-- C6 witness: the amended behaviour at concrete requests -- a GET
request (empty POST mapping and empty cookies) and a POST request
without `Content-Length` (`KeyError`). -/
theorem c6_accessor_degradation_witness :
    RequestHandler.post_args getRootEnv = Except.ok []
    ∧ RequestHandler.cookies getRootEnv = []
    ∧ RequestHandler.post_args postNoLenEnv = Except.error PyExc.keyError :=
  ⟨(c6_accessor_degradation getRootEnv).1 (by decide),
   (c6_accessor_degradation getRootEnv).2.1 rfl,
   (c6_accessor_degradation postNoLenEnv).2.2 rfl rfl⟩

/-- C8: `Session.save` with the dirty flag down performs no store write
(whether or not a store is supplied) and leaves the session unchanged;
with the flag up and a store supplied it clears the flag, serializes
the mapping, and performs exactly one write, keyed by the session
identifier. -/
theorem c8_save_write_discipline (s : Session) :
    (s.dirty = false → ∀ hasStore : Bool,
      Session.save s hasStore = Except.ok (s, []))
    ∧ (s.dirty = true → Session.save s true
        = Except.ok ({ s with dirty := false },
                     [(s.session_id, Blob.pickled s.data)])) := by
  constructor
  · intro h hs
    simp [Session.save, h]
  · intro h
    simp [Session.save, h, pickleDumps]

/-- C8 witness: a clean session saves with zero writes; the same
session after one write saves with exactly one blob keyed by its id. -/
theorem c8_save_write_discipline_witness :
    Session.save cleanSession0 false = Except.ok (cleanSession0, [])
    ∧ Session.save dirtySession0 true
        = Except.ok ({ dirtySession0 with dirty := false },
                     [(dirtySession0.session_id, Blob.pickled dirtySession0.data)]) :=
  ⟨(c8_save_write_discipline cleanSession0).1 rfl false,
   (c8_save_write_discipline dirtySession0).2 rfl⟩

/-- C10: `code_to_status` is total by construction (it returns a string
for every `Status`), and any status absent from the reason-phrase
table -- an unknown numeric code, or any string status such as the
`'302 FOUND'` that `redirect` installs -- is formatted as the status
followed by the text `None`. -/
theorem c10_code_to_status_unknown (n : Nat) (s : String) :
    (httplibResponses.lookup n = none →
      code_to_status (Status.num n) = Nat.repr n ++ " None")
    ∧ code_to_status (Status.str s) = s ++ " None" := by
  constructor
  · intro h
    simp only [code_to_status, h]
    rw [String.append_assoc]
    exact rfl
  · rfl

/-- C10 witness: 599 is not in the table and maps to `"599 None"`; the
string status `redirect` sets maps to `"302 FOUND None"`. -/
theorem c10_code_to_status_unknown_witness :
    code_to_status (Status.num 599) = "599 None"
    ∧ code_to_status (Status.str "302 FOUND") = "302 FOUND None" :=
  ⟨((c10_code_to_status_unknown 599 "302 FOUND").1 (by decide)).trans (by decide),
   (c10_code_to_status_unknown 599 "302 FOUND").2⟩

/-- C9 counterexample: the claim says a bulk registration compiles the
patterns once, at the end.  For a two-element route list,
`add_route_list` performs three compile passes (one inside each
delegated `add_route`, one more at the end), not one. -/
theorem c9_two_routes_three_compile_passes :
    (Router.add_route_list ([] : List (Rx × Nat)) [(rootPat, 0), (rootPat, 1)]).2 = 3
    ∧ (Router.add_route_list ([] : List (Rx × Nat)) [(rootPat, 0), (rootPat, 1)]).2 ≠ 1 :=
  ⟨rfl, by decide⟩

/-- C9 amended: `add_route_list` delegates each item to `add_route`,
which compiles the table after every append, and then compiles once
more at the end -- `n + 1` compile passes for an `n`-item list, not a
single pass. -/
theorem c9_bulk_add_compile_passes {H : Type} (routes new : List (Rx × H)) :
    (Router.add_route_list routes new).2 = new.length + 1 := by
  have key : ∀ (l : List (Rx × H)) (acc : List (Rx × H) × Nat),
      (l.foldl Router.add_route_fold acc).2 = acc.2 + l.length := by
    intro l
    induction l with
    | nil => intro acc; simp
    | cons r t ih =>
      intro acc
      rw [List.foldl_cons, ih]
      simp [Router.add_route_fold, Router.add_route, Router.compile_routes]
      omega
  simp only [Router.add_route_list, Router.compile_routes]
  rw [key]
  simp

/-- C7: `find_route` realizes first-match-wins ordered routing -- it
returns `None` exactly when no pattern matches the path (never
raising), and it returns `some (hd, gs)` exactly when the route table
splits as earlier all-failing routes, then a route carrying handler
`hd` whose pattern matches the path (anchored at the start, per
`rxMatch`) with capture groups `gs`, then arbitrary later routes; in
particular a later-registered overlapping pattern never shadows an
earlier one. -/
theorem c7_find_route_first_match {H : Type} (routes : List (Rx × H))
    (uri : String) :
    (Router.find_route routes uri = none ↔ ∀ r ∈ routes, rxMatch r.1 uri = none)
    ∧ (∀ (hd : H) (gs : List (Option String)),
        Router.find_route routes uri = some (hd, gs) ↔
          ∃ pre rx post, routes = pre ++ (rx, hd) :: post
            ∧ rxMatch rx uri = some gs
            ∧ ∀ r ∈ pre, rxMatch r.1 uri = none) := by
  induction routes with
  | nil =>
    constructor
    · simp [Router.find_route]
    · intro hd gs
      constructor
      · intro h
        simp [Router.find_route] at h
      · rintro ⟨pre, rx, post, hEq, -, -⟩
        exact absurd hEq (by simp)
  | cons p rest ih =>
    obtain ⟨rx0, h0⟩ := p
    cases hm : rxMatch rx0 uri with
    | none =>
      have hfr : Router.find_route ((rx0, h0) :: rest) uri
          = Router.find_route rest uri := by
        simp [Router.find_route, hm]
      constructor
      · rw [hfr, ih.1]
        constructor
        · intro hall r hr
          rcases List.mem_cons.mp hr with h | h
          · rw [h]; exact hm
          · exact hall r h
        · intro hall r hr
          exact hall r (List.mem_cons_of_mem _ hr)
      · intro hd gs
        rw [hfr, ih.2 hd gs]
        constructor
        · rintro ⟨pre, rx, post, hEq, hmx, hpre⟩
          refine ⟨(rx0, h0) :: pre, rx, post, by rw [hEq, List.cons_append], hmx, ?_⟩
          intro r hr
          rcases List.mem_cons.mp hr with h | h
          · rw [h]; exact hm
          · exact hpre r h
        · rintro ⟨pre, rx, post, hEq, hmx, hpre⟩
          cases pre with
          | nil =>
            exfalso
            simp only [List.nil_append] at hEq
            injection hEq with hpair hrest
            injection hpair with hrx hh
            rw [hrx] at hm
            rw [hm] at hmx
            exact Option.noConfusion hmx
          | cons q pre2 =>
            simp only [List.cons_append] at hEq
            injection hEq with hq hrest
            refine ⟨pre2, rx, post, hrest, hmx, ?_⟩
            intro r hr
            exact hpre r (List.mem_cons_of_mem _ hr)
    | some gs0 =>
      have hfr : Router.find_route ((rx0, h0) :: rest) uri = some (h0, gs0) := by
        simp [Router.find_route, hm]
      constructor
      · rw [hfr]
        constructor
        · intro h
          exact absurd h (by simp)
        · intro hall
          have hx := hall (rx0, h0) (List.mem_cons_self _ _)
          rw [hm] at hx
          exact absurd hx (by simp)
      · intro hd gs
        rw [hfr]
        constructor
        · intro h
          injection h with hpair
          injection hpair with hh hgs
          refine ⟨[], rx0, rest, ?_, ?_, ?_⟩
          · rw [List.nil_append, hh]
          · rw [hm, hgs]
          · intro r hr
            exact absurd hr (List.not_mem_nil r)
        · rintro ⟨pre, rx, post, hEq, hmx, hpre⟩
          cases pre with
          | nil =>
            simp only [List.nil_append] at hEq
            injection hEq with hpair hrest
            injection hpair with hrx hh
            rw [hrx] at hm
            rw [hm] at hmx
            injection hmx with hgs
            rw [hh, hgs]
          | cons q pre2 =>
            exfalso
            simp only [List.cons_append] at hEq
            injection hEq with hq hrest
            have hqn := hpre q (List.mem_cons_self _ _)
            have hqn2 : rxMatch rx0 uri = none := by
              rw [← hq] at hqn
              exact hqn
            rw [hm] at hqn2
            exact Option.noConfusion hqn2

/-- C7 witness: against the table `[^/$ bound to 0, /test/(\d)/? bound
to 1]`, the path `/test/7` skips the failing first route and resolves
to handler 1 with captured group `"7"`. -/
theorem c7_find_route_first_match_witness :
    Router.find_route [(rootPat, 0), (testDigitPat, 1)] "/test/7"
      = some (1, [some "7"]) :=
  ((c7_find_route_first_match [(rootPat, 0), (testDigitPat, 1)] "/test/7").2
      1 [some "7"]).mpr
    ⟨[(rootPat, 0)], testDigitPat, [], rfl, rfl, by
      intro r hr
      simp only [List.mem_singleton] at hr
      rw [hr]
      exact rfl⟩
